import Mathlib

/-!
Verification of the Repl component (src/js/repl/Repl.js): a shallow embedding
of its state type and handler logic, with theorems about plugin lazy-loading,
debounced recompilation, compile-option construction, persistence of state to
local storage and the URL, and settings updates.

External collaborators that Repl.js invokes but that live outside this file
(the compile helper, replUtils, scopedEval, the storage and URI services) are
passed in explicitly as function arguments, mirroring their use as black boxes.
-/

namespace Repl

/-- Static configuration of a plugin or preset (PluginConfig entries from
PluginConfig.js); Repl.js only reads the label field (in _presetsToArray). -/
structure PluginConfig where
  label : String
  deriving Repr, DecidableEq

/-- Dynamic load state of a plugin, a preset or the runtime polyfill
(PluginState from types.js): the fields that Repl.js reads and writes. -/
structure PluginState where
  isEnabled : Bool
  isLoaded : Bool
  isLoading : Bool
  config : PluginConfig
  deriving Repr, DecidableEq

/-- Target-environment configuration (EnvConfig from types.js): the fields
that Repl.js reads in _compile, _persistState and the constructor. -/
structure EnvConfig where
  browsers : String
  electron : String
  isEnvPresetEnabled : Bool
  isElectronEnabled : Bool
  isNodeEnabled : Bool
  node : String
  deriving Repr, DecidableEq

/-- Babel load state (BabelState from types.js): the fields that Repl.js
reads in _persistState. -/
structure BabelState where
  build : String
  circleciRepo : String
  version : String
  deriving Repr, DecidableEq

/-- The State type of the Repl component (src/js/repl/Repl.js lines 42-59).
The plugins and presets maps are keyed objects; they are embedded as
association lists in insertion order, matching the order in which a JS
for-in loop and Object.keys visit the keys. -/
structure State where
  babel : BabelState
  builtIns : Bool
  code : String
  compiled : Option String
  compileError : Option String
  debugEnvPreset : Bool
  envConfig : EnvConfig
  envPresetDebugInfo : Option String
  envPresetState : PluginState
  evalError : Option String
  isSidebarExpanded : Bool
  lineWrap : Bool
  plugins : List (String × PluginState)
  presets : List (String × PluginState)
  runtimePolyfillState : PluginState
  sourceMap : Option String
  deriving Repr, DecidableEq

/-- A background load that _checkForUnloadedPlugins may initiate: a plugin
load by key, the runtime polyfill load, or the env preset load. -/
inductive LoadAction where
  | plugin (key : String)
  | runtimePolyfill
  | envPreset
  deriving Repr, DecidableEq

/-- The per-plugin guard of the loop in _checkForUnloadedPlugins (line 219):
plugin.isEnabled, not plugin.isLoaded, not plugin.isLoading. -/
def pluginNeedsLoad (p : PluginState) : Bool :=
  p.isEnabled && !p.isLoaded && !p.isLoading

/-- The set of background loads initiated by one pass of
_checkForUnloadedPlugins (lines 206-275): one loadPlugin call per plugins
entry passing the guard, a runtime polyfill load when it is enabled and not
loaded, and an env preset load when the env preset is requested and not
loaded. -/
def checkForUnloadedPluginsActions (s : State) : List LoadAction :=
  ((s.plugins.filter (fun kp => pluginNeedsLoad kp.2)).map
      (fun kp => LoadAction.plugin kp.1))
    ++ (if s.runtimePolyfillState.isEnabled && !s.runtimePolyfillState.isLoaded
          then [LoadAction.runtimePolyfill] else [])
    ++ (if s.envConfig.isEnvPresetEnabled && !s.envPresetState.isLoaded
          then [LoadAction.envPreset] else [])

theorem assoc_nodup_keys_unique {β : Type} {l : List (String × β)}
    (hnodup : (l.map Prod.fst).Nodup) {k : String} {p q : β}
    (hp : (k, p) ∈ l) (hq : (k, q) ∈ l) : p = q := by
  induction l with
  | nil => cases hp
  | cons hd tl ih =>
    simp only [List.map_cons, List.nodup_cons] at hnodup
    rcases List.mem_cons.mp hp with hp1 | hp1 <;>
      rcases List.mem_cons.mp hq with hq1 | hq1
    · rw [← hp1] at hq1; exact (Prod.mk.injEq _ _ _ _ ▸ hq1.symm).2.symm ▸ rfl
    · exfalso
      exact hnodup.1 (hp1 ▸ (List.mem_map.mpr ⟨(k, q), hq1, rfl⟩))
    · exfalso
      exact hnodup.1 (hq1 ▸ (List.mem_map.mpr ⟨(k, p), hp1, rfl⟩))
    · exact ih hnodup.2 hp1 hq1

/-- C1: for every entry (k, p) of state.plugins, one pass of
_checkForUnloadedPlugins initiates a background load of plugin k if and only
if p is enabled, not yet loaded, and not currently loading; a plugin that is
disabled, already loaded, or already in flight is never loaded by this pass. -/
theorem checkForUnloadedPlugins_loads_iff (s : State) (k : String)
    (p : PluginState) (hmem : (k, p) ∈ s.plugins)
    (hnodup : (s.plugins.map Prod.fst).Nodup) :
    LoadAction.plugin k ∈ checkForUnloadedPluginsActions s ↔
      (p.isEnabled = true ∧ p.isLoaded = false ∧ p.isLoading = false) := by
  unfold checkForUnloadedPluginsActions
  constructor
  · intro hin
    rcases List.mem_append.mp hin with hin1 | hin2
    · rcases List.mem_append.mp hin1 with hin3 | hin3
      · rcases List.mem_map.mp hin3 with ⟨kp, hkp, hkpe⟩
        rcases List.mem_filter.mp hkp with ⟨hkpmem, hkpfil⟩
        have hk : kp.1 = k := by
          simpa using congrArg (fun a => match a with
            | LoadAction.plugin key => key
            | _ => "") hkpe
        have hpq : kp.2 = p := by
          apply assoc_nodup_keys_unique hnodup _ hmem
          rw [← hk]
          exact hkpmem
        rw [hpq] at hkpfil
        unfold pluginNeedsLoad at hkpfil
        simp only [Bool.and_eq_true, Bool.not_eq_true'] at hkpfil
        exact ⟨hkpfil.1.1, hkpfil.1.2, hkpfil.2⟩
      · by_cases h1 : (s.runtimePolyfillState.isEnabled &&
            !s.runtimePolyfillState.isLoaded) = true <;> simp [h1] at hin3
    · by_cases h1 : (s.envConfig.isEnvPresetEnabled &&
          !s.envPresetState.isLoaded) = true <;> simp [h1] at hin2
  · intro hcond
    apply List.mem_append.mpr
    left
    apply List.mem_append.mpr
    left
    apply List.mem_map.mpr
    refine ⟨(k, p), List.mem_filter.mpr ⟨hmem, ?_⟩, rfl⟩
    unfold pluginNeedsLoad
    simp [hcond.1, hcond.2.1, hcond.2.2]

/-- Example plugin configuration used by concrete witnesses. -/
def sampleConfig : PluginConfig := { label := "babili" }

/-- A concrete plugin state: enabled, unloaded, not loading. -/
def samplePluginNeedy : PluginState :=
  { isEnabled := true, isLoaded := false, isLoading := false,
    config := sampleConfig }

/-- A concrete plugin state: disabled. -/
def samplePluginDisabled : PluginState :=
  { isEnabled := false, isLoaded := false, isLoading := false,
    config := { label := "prettier" } }

/-- A concrete env configuration with everything off. -/
def sampleEnvConfig : EnvConfig :=
  { browsers := "", electron := "1.8", isEnvPresetEnabled := false,
    isElectronEnabled := false, isNodeEnabled := false, node := "8.9" }

/-- A concrete Babel load state. -/
def sampleBabel : BabelState :=
  { build := "", circleciRepo := "", version := "6.26.0" }

/-- A concrete component state used by witnesses. -/
def sampleState : State :=
  { babel := sampleBabel
    builtIns := false
    code := "x=>x"
    compiled := none
    compileError := none
    debugEnvPreset := false
    envConfig := sampleEnvConfig
    envPresetDebugInfo := none
    envPresetState := samplePluginDisabled
    evalError := none
    isSidebarExpanded := true
    lineWrap := false
    plugins := [("babili-standalone", samplePluginNeedy),
                ("prettier", samplePluginDisabled)]
    presets := []
    runtimePolyfillState := samplePluginDisabled
    sourceMap := none }

theorem checkForUnloadedPlugins_loads_iff_witness :
    LoadAction.plugin "babili-standalone" ∈
      checkForUnloadedPluginsActions sampleState ↔
      (samplePluginNeedy.isEnabled = true ∧
        samplePluginNeedy.isLoaded = false ∧
        samplePluginNeedy.isLoading = false) :=
  checkForUnloadedPlugins_loads_iff sampleState "babili-standalone"
    samplePluginNeedy (by decide) (by decide)

/-- JS logical negation applied to a possibly-absent boolean property: an
absent property reads as undefined, which is falsy, so its negation is true. -/
def jsNotField : Option Bool → Bool
  | none => true
  | some b => !b

/-- The property access state.evaluate on line 316 of Repl.js: the State type
(lines 42-59) declares no field named evaluate (the evaluation flag actually
lives in runtimePolyfillState.isEnabled), so the access yields undefined,
embedded as none. -/
def stateEvaluateAccess (_ : State) : Option Bool := none

/-- The useBuiltIns env-preset option as computed on line 316 of Repl.js:
the negation of state.evaluate, conjoined with state.builtIns. -/
def useBuiltInsOption (s : State) : Bool :=
  jsNotField (stateEvaluateAccess s) && s.builtIns

/-- C9: the env preset option useBuiltIns always equals state.builtIns: the
guard reading the nonexistent state.evaluate field is always true, and
enabling evaluation (runtimePolyfillState.isEnabled) never disables
useBuiltIns. -/
theorem useBuiltIns_eq_builtIns (s : State) :
    useBuiltInsOption s = s.builtIns ∧
    jsNotField (stateEvaluateAccess s) = true ∧
    (∀ b : Bool,
      useBuiltInsOption { s with runtimePolyfillState :=
        { s.runtimePolyfillState with isEnabled := b } } = s.builtIns) := by
  refine ⟨?_, rfl, fun b => ?_⟩ <;>
    simp [useBuiltInsOption, jsNotField, stateEvaluateAccess]

/-- Keys of the State type (Repl.js lines 42-59), as tested by the
state.hasOwnProperty(name) branch of _onSettingChange. -/
def stateKeys : List String :=
  ["babel", "builtIns", "code", "compiled", "compileError", "debugEnvPreset",
   "envConfig", "envPresetDebugInfo", "envPresetState", "evalError",
   "isSidebarExpanded", "lineWrap", "plugins", "presets",
   "runtimePolyfillState", "sourceMap"]

/-- A top-level state field value as React holds it at runtime: the typed
contents of one State field, or the bare boolean that the State-key branch
of _onSettingChange writes over a field. -/
inductive JsValue where
  | bool (b : Bool)
  | str (s : String)
  | optStr (o : Option String)
  | babelVal (b : BabelState)
  | envVal (e : EnvConfig)
  | pluginVal (p : PluginState)
  | mapVal (m : List (String × PluginState))
  deriving Repr, DecidableEq

/-- The component state as the keyed object React holds at runtime: the
top-level fields of State (Repl.js lines 42-59) in declaration order. -/
def stateFields (s : State) : List (String × JsValue) :=
  [("babel", JsValue.babelVal s.babel),
   ("builtIns", JsValue.bool s.builtIns),
   ("code", JsValue.str s.code),
   ("compiled", JsValue.optStr s.compiled),
   ("compileError", JsValue.optStr s.compileError),
   ("debugEnvPreset", JsValue.bool s.debugEnvPreset),
   ("envConfig", JsValue.envVal s.envConfig),
   ("envPresetDebugInfo", JsValue.optStr s.envPresetDebugInfo),
   ("envPresetState", JsValue.pluginVal s.envPresetState),
   ("evalError", JsValue.optStr s.evalError),
   ("isSidebarExpanded", JsValue.bool s.isSidebarExpanded),
   ("lineWrap", JsValue.bool s.lineWrap),
   ("plugins", JsValue.mapVal s.plugins),
   ("presets", JsValue.mapVal s.presets),
   ("runtimePolyfillState", JsValue.pluginVal s.runtimePolyfillState),
   ("sourceMap", JsValue.optStr s.sourceMap)]

/-- Lookup of a top-level field in the runtime field map. -/
def lookupField (fields : List (String × JsValue)) (name : String) :
    Option JsValue :=
  match fields with
  | [] => none
  | (k, w) :: tl => if k = name then some w else lookupField tl name

/-- The setState merge of the one-key object returned by the State-key
branch of _onSettingChange (Repl.js lines 372-375): the named top-level
field is overwritten with the boolean — also for the non-boolean State
fields, which is why this branch is modelled on the runtime field map rather
than on the typed State record — and every other field is kept. -/
def mergeSettingIntoFields (fields : List (String × JsValue)) (name : String)
    (v : Bool) : List (String × JsValue) :=
  fields.map (fun kv =>
    if kv.1 = name then (kv.1, JsValue.bool v) else kv)

/-- Lookup of a key in a keyed object embedded as an association list, as
used for plugins[name], presets[name] and the hasOwnProperty tests. -/
def lookupKey (m : List (String × PluginState)) (name : String) :
    Option PluginState :=
  match m with
  | [] => none
  | (k, p) :: tl => if k = name then some p else lookupKey tl name

/-- In-place update of the isEnabled flag of the entry named name in a keyed
plugin-state map, as done by plugins[name].isEnabled = isEnabled. -/
def setEnabledInMap (m : List (String × PluginState)) (name : String)
    (v : Bool) : List (String × PluginState) :=
  m.map (fun kp =>
    if kp.1 = name then (kp.1, { kp.2 with isEnabled := v }) else kp)

/-- The state updater passed to setState by _onSettingChange (Repl.js lines
362-390), with its result merged into the runtime field map; the value none
models the updater returning undefined, in which case no state change is
applied. The babel-polyfill, plugins and presets branches mutate values the
typed State record represents, embedded through stateFields; the State-key
branch is the raw one-key merge of the boolean over the named field. -/
def onSettingChangeUpdater (s : State) (name : String) (isEnabled : Bool) :
    Option (List (String × JsValue)) :=
  if name = "babel-polyfill" then
    some (stateFields { s with runtimePolyfillState :=
      { s.runtimePolyfillState with isEnabled := isEnabled } })
  else if stateKeys.contains name then
    some (mergeSettingIntoFields (stateFields s) name isEnabled)
  else if (lookupKey s.plugins name).isSome then
    some (stateFields
      { s with plugins := setEnabledInMap s.plugins name isEnabled })
  else if (lookupKey s.presets name).isSome then
    some (stateFields
      { s with presets := setEnabledInMap s.presets name isEnabled })
  else none

/-- Effect of _onSettingChange on the runtime field map of the component
state: the updater result, where an undefined result leaves the state
unchanged. -/
def onSettingChange (s : State) (name : String) (isEnabled : Bool) :
    List (String × JsValue) :=
  (onSettingChangeUpdater s name isEnabled).getD (stateFields s)

theorem lookupKey_cons (k0 : String) (p0 : PluginState)
    (l : List (String × PluginState)) (name : String) :
    lookupKey ((k0, p0) :: l) name =
      if k0 = name then some p0 else lookupKey l name := rfl

theorem setEnabledInMap_cons (k0 : String) (p0 : PluginState)
    (tl : List (String × PluginState)) (name : String) (v : Bool) :
    setEnabledInMap ((k0, p0) :: tl) name v =
      (if k0 = name then (k0, { p0 with isEnabled := v }) else (k0, p0)) ::
        setEnabledInMap tl name v := rfl

theorem lookupKey_setEnabledInMap_self (m : List (String × PluginState))
    (name : String) (v : Bool) :
    lookupKey (setEnabledInMap m name v) name =
      (lookupKey m name).map (fun p => { p with isEnabled := v }) := by
  induction m with
  | nil => rfl
  | cons hd tl ih =>
    rcases hd with ⟨k0, p0⟩
    rw [setEnabledInMap_cons]
    by_cases h : k0 = name
    · rw [if_pos h, lookupKey_cons, lookupKey_cons, if_pos h, if_pos h]
      rfl
    · rw [if_neg h, lookupKey_cons, lookupKey_cons, if_neg h, if_neg h]
      exact ih

theorem lookupKey_setEnabledInMap_ne (m : List (String × PluginState))
    (name k : String) (v : Bool) (hk : k ≠ name) :
    lookupKey (setEnabledInMap m name v) k = lookupKey m k := by
  induction m with
  | nil => rfl
  | cons hd tl ih =>
    rcases hd with ⟨k0, p0⟩
    rw [setEnabledInMap_cons]
    by_cases h : k0 = name
    · have hne : ¬(k0 = k) := fun he => hk (he ▸ h)
      rw [if_pos h, lookupKey_cons, lookupKey_cons, if_neg hne, if_neg hne]
      exact ih
    · rw [if_neg h, lookupKey_cons, lookupKey_cons]
      by_cases h3 : k0 = k
      · rw [if_pos h3, if_pos h3]
      · rw [if_neg h3, if_neg h3]
        exact ih

theorem lookupField_cons (k0 : String) (w0 : JsValue)
    (l : List (String × JsValue)) (name : String) :
    lookupField ((k0, w0) :: l) name =
      if k0 = name then some w0 else lookupField l name := rfl

theorem mergeSettingIntoFields_cons (k0 : String) (w0 : JsValue)
    (tl : List (String × JsValue)) (name : String) (v : Bool) :
    mergeSettingIntoFields ((k0, w0) :: tl) name v =
      (if k0 = name then (k0, JsValue.bool v) else (k0, w0)) ::
        mergeSettingIntoFields tl name v := rfl

theorem lookupField_mergeSetting_self (fields : List (String × JsValue))
    (name : String) (v : Bool) :
    lookupField (mergeSettingIntoFields fields name v) name =
      (lookupField fields name).map (fun _ => JsValue.bool v) := by
  induction fields with
  | nil => rfl
  | cons hd tl ih =>
    rcases hd with ⟨k0, w0⟩
    rw [mergeSettingIntoFields_cons]
    by_cases h : k0 = name
    · rw [if_pos h, lookupField_cons, lookupField_cons, if_pos h, if_pos h]
      rfl
    · rw [if_neg h, lookupField_cons, lookupField_cons, if_neg h, if_neg h]
      exact ih

theorem lookupField_mergeSetting_ne (fields : List (String × JsValue))
    (name k : String) (v : Bool) (hk : k ≠ name) :
    lookupField (mergeSettingIntoFields fields name v) k =
      lookupField fields k := by
  induction fields with
  | nil => rfl
  | cons hd tl ih =>
    rcases hd with ⟨k0, w0⟩
    rw [mergeSettingIntoFields_cons]
    by_cases h : k0 = name
    · have hne : ¬(k0 = k) := fun he => hk (he ▸ h)
      rw [if_pos h, lookupField_cons, lookupField_cons, if_neg hne,
        if_neg hne]
      exact ih
    · rw [if_neg h, lookupField_cons, lookupField_cons]
      by_cases h3 : k0 = k
      · rw [if_pos h3, if_pos h3]
      · rw [if_neg h3, if_neg h3]
        exact ih

theorem stateFields_lookup_isSome (s : State) (name : String)
    (h : stateKeys.contains name = true) :
    (lookupField (stateFields s) name).isSome = true := by
  have hm : name ∈ stateKeys := by simpa using h
  simp only [stateKeys, List.mem_cons, List.not_mem_nil, or_false] at hm
  rcases hm with rfl | rfl | rfl | rfl | rfl | rfl | rfl | rfl | rfl | rfl |
    rfl | rfl | rfl | rfl | rfl | rfl <;> rfl

/-- C10: _onSettingChange changes exactly one setting and leaves every other
setting unchanged: the runtime polyfill isEnabled flag for babel-polyfill
(every other field pinned through the full state equation); for a State key,
the named top-level field of the runtime field map is overwritten with the
boolean — including isSidebarExpanded and the non-boolean fields — and every
other top-level field is untouched; for a plugins (resp. presets) key, that
entry gets its isEnabled flag set with every other entry and every other
state field unchanged; and for any other name the updater returns undefined
and the state is not modified. -/
theorem onSettingChange_frame (s : State) (name : String) (v : Bool) :
    (name = "babel-polyfill" →
      onSettingChange s name v =
        stateFields { s with runtimePolyfillState :=
          { s.runtimePolyfillState with isEnabled := v } }) ∧
    (name ≠ "babel-polyfill" → stateKeys.contains name = true →
      (onSettingChange s name v =
          mergeSettingIntoFields (stateFields s) name v ∧
        lookupField (onSettingChange s name v) name =
          some (JsValue.bool v) ∧
        (∀ k : String, k ≠ name →
          lookupField (onSettingChange s name v) k =
            lookupField (stateFields s) k))) ∧
    (name ≠ "babel-polyfill" → stateKeys.contains name = false →
      (lookupKey s.plugins name).isSome = true →
      (onSettingChange s name v =
          stateFields
            { s with plugins := setEnabledInMap s.plugins name v } ∧
        lookupKey (setEnabledInMap s.plugins name v) name =
          (lookupKey s.plugins name).map
            (fun p => { p with isEnabled := v }) ∧
        (∀ k : String, k ≠ name →
          lookupKey (setEnabledInMap s.plugins name v) k =
            lookupKey s.plugins k))) ∧
    (name ≠ "babel-polyfill" → stateKeys.contains name = false →
      (lookupKey s.plugins name).isSome = false →
      (lookupKey s.presets name).isSome = true →
      (onSettingChange s name v =
          stateFields
            { s with presets := setEnabledInMap s.presets name v } ∧
        lookupKey (setEnabledInMap s.presets name v) name =
          (lookupKey s.presets name).map
            (fun p => { p with isEnabled := v }) ∧
        (∀ k : String, k ≠ name →
          lookupKey (setEnabledInMap s.presets name v) k =
            lookupKey s.presets k))) ∧
    (name ≠ "babel-polyfill" → stateKeys.contains name = false →
      (lookupKey s.plugins name).isSome = false →
      (lookupKey s.presets name).isSome = false →
      (onSettingChangeUpdater s name v = none ∧
        onSettingChange s name v = stateFields s)) := by
  refine ⟨?_, ?_, ?_, ?_, ?_⟩
  · intro h
    subst h
    simp [onSettingChange, onSettingChangeUpdater]
  · intro h1 h2
    have h2m : name ∈ stateKeys := by simpa using h2
    have hres : onSettingChange s name v =
        mergeSettingIntoFields (stateFields s) name v := by
      simp [onSettingChange, onSettingChangeUpdater, h1, h2m]
    refine ⟨hres, ?_, ?_⟩
    · rw [hres, lookupField_mergeSetting_self]
      rcases Option.isSome_iff_exists.mp
        (stateFields_lookup_isSome s name h2) with ⟨w, hw⟩
      rw [hw]
      rfl
    · intro k hk
      rw [hres]
      exact lookupField_mergeSetting_ne (stateFields s) name k v hk
  · intro h1 h2 h3
    have h2m : name ∉ stateKeys := by simpa using h2
    have hres : onSettingChange s name v =
        stateFields { s with plugins := setEnabledInMap s.plugins name v } := by
      simp [onSettingChange, onSettingChangeUpdater, h1, h2m, h3]
    exact ⟨hres, lookupKey_setEnabledInMap_self s.plugins name v,
      fun k hk => lookupKey_setEnabledInMap_ne s.plugins name k v hk⟩
  · intro h1 h2 h3 h4
    have h2m : name ∉ stateKeys := by simpa using h2
    have hres : onSettingChange s name v =
        stateFields { s with presets := setEnabledInMap s.presets name v } := by
      simp [onSettingChange, onSettingChangeUpdater, h1, h2m, h3, h4]
    exact ⟨hres, lookupKey_setEnabledInMap_self s.presets name v,
      fun k hk => lookupKey_setEnabledInMap_ne s.presets name k v hk⟩
  · intro h1 h2 h3 h4
    have h2m : name ∉ stateKeys := by simpa using h2
    have hupd : onSettingChangeUpdater s name v = none := by
      simp [onSettingChangeUpdater, h1, h2m, h3, h4]
    exact ⟨hupd, by simp [onSettingChange, hupd]⟩

theorem onSettingChange_frame_witness :
    onSettingChange sampleState "lineWrap" true =
        mergeSettingIntoFields (stateFields sampleState) "lineWrap" true ∧
      lookupField (onSettingChange sampleState "lineWrap" true) "lineWrap" =
        some (JsValue.bool true) ∧
      (∀ k : String, k ≠ "lineWrap" →
        lookupField (onSettingChange sampleState "lineWrap" true) k =
          lookupField (stateFields sampleState) k) :=
  (onSettingChange_frame sampleState "lineWrap" true).2.1 (by decide)
    (by decide)

/-- Browser targets parsing in _compile (lines 291-296): split the browsers
string on commas, trim each entry, and drop the empty ones. -/
def splitBrowsers (browsers : String) : List String :=
  ((browsers.splitOn ",").map (fun v => v.trim)).filter (fun v => v ≠ "")

/-- The targets object built for the env preset in _compile (lines 290-302);
a field is absent (none) when its guard is off, and the browsers guard is JS
string truthiness, false exactly on the empty string. -/
structure CompileTargets where
  browsers : Option (List String)
  electron : Option String
  node : Option String
  deriving Repr, DecidableEq

/-- Construction of the targets object from the env configuration. -/
def buildTargets (e : EnvConfig) : CompileTargets :=
  { browsers := if e.browsers ≠ "" then some (splitBrowsers e.browsers)
      else none
    electron := if e.isElectronEnabled then some e.electron else none
    node := if e.isNodeEnabled then some e.node else none }

/-- The options object for the env preset (lines 306-317): whether the
onPresetBuild callback was installed (it is exactly when debugEnvPreset is
set), the targets, and useBuiltIns. -/
structure EnvPresetOptions where
  hasOnPresetBuild : Bool
  targets : CompileTargets
  useBuiltIns : Bool
  deriving Repr, DecidableEq

/-- The env preset options built by _compile for the current state. -/
def envPresetOptionsOf (s : State) : EnvPresetOptions :=
  { hasOnPresetBuild := s.debugEnvPreset
    targets := buildTargets s.envConfig
    useBuiltIns := useBuiltInsOption s }

/-- An entry of the presets array passed to compile: a plain preset name, or
the env preset paired with its options object. -/
inductive PresetEntry where
  | named (label : String)
  | envWithOptions (opts : EnvPresetOptions)
  deriving Repr, DecidableEq

/-- The method _presetsToArray (lines 432-438): the labels of the presets
that are both enabled and loaded, in key order. -/
def presetsToArray (s : State) : List String :=
  (s.presets.filter (fun kp => kp.2.isEnabled && kp.2.isLoaded)).map
    (fun kp => kp.2.config.label)

/-- Reads plugins[name].isEnabled; the configured map always contains the
keys the source indexes directly (babili-standalone, prettier). -/
def pluginIsEnabled (plugins : List (String × PluginState))
    (name : String) : Bool :=
  match lookupKey plugins name with
  | some p => p.isEnabled
  | none => false

/-- Reads plugins[name].isEnabled and plugins[name].isLoaded together, the
babili guard of _compile (line 283). -/
def pluginEnabledAndLoaded (plugins : List (String × PluginState))
    (name : String) : Bool :=
  match lookupKey plugins name with
  | some p => p.isEnabled && p.isLoaded
  | none => false

/-- Options passed to the compile helper by _compile (lines 322-329). -/
structure CompileOptions where
  evaluate : Bool
  presets : List PresetEntry
  prettify : Bool
  sourceMap : Bool
  deriving Repr, DecidableEq

/-- The presets array built by _compile (lines 280-320): enabled and loaded
presets, then babili when the babili-standalone plugin is enabled and
loaded, then the env preset with options when it is enabled and loaded. -/
def compilePresetsArray (s : State) : List PresetEntry :=
  ((presetsToArray s).map PresetEntry.named)
    ++ (if pluginEnabledAndLoaded s.plugins "babili-standalone"
          then [PresetEntry.named "babili"] else [])
    ++ (if s.envConfig.isEnvPresetEnabled && s.envPresetState.isLoaded
          then [PresetEntry.envWithOptions (envPresetOptionsOf s)] else [])

/-- The options object passed to compile by _compile (lines 322-329). -/
def compileOptionsOf (s : State) : CompileOptions :=
  { evaluate := s.runtimePolyfillState.isEnabled &&
      s.runtimePolyfillState.isLoaded
    presets := compilePresetsArray s
    prettify := pluginIsEnabled s.plugins "prettier"
    sourceMap := s.runtimePolyfillState.isEnabled }

/-- The envPresetDebugInfo captured by one run of _compile (lines 287-311):
the local starts null; only inside the branch where the env preset is
enabled and loaded, and only when debugEnvPreset is set, is the onPresetBuild
callback installed, and it stores getDebugInfoFromEnvResult applied to the
build result the compiler reports. The envBuild argument is the build result
the compiler passes to onPresetBuild, none when it never invokes it. -/
def compileEnvPresetDebugInfo {α : Type}
    (getDebugInfoFromEnvResult : α → String) (envBuild : Option α)
    (s : State) : Option String :=
  if s.envConfig.isEnvPresetEnabled && s.envPresetState.isLoaded then
    if s.debugEnvPreset then envBuild.map getDebugInfoFromEnvResult
    else none
  else none

/-- Modelled from the spec: the result object of the external compile helper
(an out-of-scope collaborator producing the transformed output, any compile
or evaluation error, and the source map), which _compile spreads into the
state update it returns. -/
structure CompileResult where
  compiled : Option String
  compileError : Option String
  evalError : Option String
  sourceMap : Option String
  deriving Repr, DecidableEq

/-- The state update returned by _compile (lines 277-332): the compile
helper result together with the captured envPresetDebugInfo, merged into the
previous state by setState. -/
def applyCompileUpdate (r : CompileResult) (dbg : Option String)
    (s : State) : State :=
  { s with
    compiled := r.compiled
    compileError := r.compileError
    evalError := r.evalError
    sourceMap := r.sourceMap
    envPresetDebugInfo := dbg }

/-- The info prop of the output panel in render (line 181): the env preset
debug info is shown only when debugEnvPreset is set. -/
def renderedOutputInfo (s : State) : Option String :=
  if s.debugEnvPreset then s.envPresetDebugInfo else none

/-- The serialized configuration object built by _persistState (lines
406-421). -/
structure PersistedState where
  babili : Bool
  browsers : String
  build : String
  builtIns : Bool
  circleciRepo : String
  code : String
  debug : Bool
  evaluate : Bool
  lineWrap : Bool
  presets : String
  prettier : Bool
  showSidebar : Bool
  targets : String
  version : String
  deriving Repr, DecidableEq

/-- Calls the component makes on its external collaborators. -/
inductive ReplEffect where
  | scopedEvalCall (code : String) (sourceMap : Option String)
  | compileCall (code : String)
  | storageSet (key : String) (payload : PersistedState)
  | uriUpdateQuery (payload : PersistedState)
  deriving Repr, DecidableEq

/-- The runtime polyfill load callback (lines 243-261): when there is no
compiled output the callback returns before evaluating (the guard is JS
string truthiness, so a null or empty compiled is skipped); otherwise the
compiled code is evaluated by scopedEval, any thrown error is caught into
evalError, and a successful evaluation resets evalError to null before the
re-render. The scopedEvalFn argument is the external scopedEval, returning
ok or the thrown error. -/
def runtimePolyfillLoadCallback
    (scopedEvalFn : String → Option String → Except String Unit)
    (s : State) : State × List ReplEffect :=
  match s.compiled with
  | none => (s, [])
  | some c =>
    if c = "" then (s, [])
    else
      match scopedEvalFn c s.sourceMap with
      | Except.ok _ =>
        ({ s with evalError := none },
          [ReplEffect.scopedEvalCall c s.sourceMap])
      | Except.error e =>
        ({ s with evalError := some e },
          [ReplEffect.scopedEvalCall c s.sourceMap])

theorem runtimePolyfillLoadCallback_none
    (scopedEvalFn : String → Option String → Except String Unit) (s : State)
    (hc : s.compiled = none) :
    runtimePolyfillLoadCallback scopedEvalFn s = (s, []) := by
  unfold runtimePolyfillLoadCallback
  rw [hc]

theorem runtimePolyfillLoadCallback_some
    (scopedEvalFn : String → Option String → Except String Unit) (s : State)
    (c : String) (hc : s.compiled = some c) :
    runtimePolyfillLoadCallback scopedEvalFn s =
      if c = "" then (s, [])
      else
        match scopedEvalFn c s.sourceMap with
        | Except.ok _ =>
          ({ s with evalError := none },
            [ReplEffect.scopedEvalCall c s.sourceMap])
        | Except.error e =>
          ({ s with evalError := some e },
            [ReplEffect.scopedEvalCall c s.sourceMap]) := by
  unfold runtimePolyfillLoadCallback
  rw [hc]

/-- C3: _compile passes evaluate to compile exactly when the runtime
polyfill is both enabled and loaded; _checkForUnloadedPlugins starts the
runtime polyfill load exactly when it is enabled and not yet loaded; and the
polyfill load callback evaluates the most recently compiled code without
recompiling: it issues one scopedEval call on state.compiled, leaves code,
compiled and sourceMap unchanged, and issues no compile call. -/
theorem compile_evaluate_gated (s : State)
    (scopedEvalFn : String → Option String → Except String Unit) :
    ((compileOptionsOf s).evaluate =
      (s.runtimePolyfillState.isEnabled &&
        s.runtimePolyfillState.isLoaded)) ∧
    (LoadAction.runtimePolyfill ∈ checkForUnloadedPluginsActions s ↔
      (s.runtimePolyfillState.isEnabled = true ∧
        s.runtimePolyfillState.isLoaded = false)) ∧
    (∀ c : String, s.compiled = some c → c ≠ "" →
      (runtimePolyfillLoadCallback scopedEvalFn s).2 =
        [ReplEffect.scopedEvalCall c s.sourceMap]) ∧
    ((runtimePolyfillLoadCallback scopedEvalFn s).1.compiled = s.compiled ∧
      (runtimePolyfillLoadCallback scopedEvalFn s).1.code = s.code ∧
      (runtimePolyfillLoadCallback scopedEvalFn s).1.sourceMap =
        s.sourceMap) ∧
    (∀ eff ∈ (runtimePolyfillLoadCallback scopedEvalFn s).2,
      ∀ code : String, eff ≠ ReplEffect.compileCall code) := by
  refine ⟨rfl, ?_, ?_, ?_, ?_⟩
  · unfold checkForUnloadedPluginsActions
    by_cases h : (s.runtimePolyfillState.isEnabled &&
        !s.runtimePolyfillState.isLoaded) = true
    · simp only [Bool.and_eq_true, Bool.not_eq_true'] at h
      simp [h.1, h.2]
    · simp only [Bool.and_eq_true, Bool.not_eq_true', not_and_or,
        Bool.not_eq_true] at h
      by_cases h2 : (s.envConfig.isEnvPresetEnabled &&
          !s.envPresetState.isLoaded) = true <;>
        rcases h with h | h <;> simp [h, h2]
  · intro c hc hne
    rw [runtimePolyfillLoadCallback_some scopedEvalFn s c hc, if_neg hne]
    cases scopedEvalFn c s.sourceMap <;> rfl
  · cases hc : s.compiled with
    | none =>
      rw [runtimePolyfillLoadCallback_none scopedEvalFn s hc]
      exact ⟨hc, rfl, rfl⟩
    | some c =>
      rw [runtimePolyfillLoadCallback_some scopedEvalFn s c hc]
      by_cases hne : c = ""
      · rw [if_pos hne]
        exact ⟨hc, rfl, rfl⟩
      · rw [if_neg hne]
        cases scopedEvalFn c s.sourceMap <;> exact ⟨hc, rfl, rfl⟩
  · intro eff heff code
    cases hc : s.compiled with
    | none =>
      rw [runtimePolyfillLoadCallback_none scopedEvalFn s hc] at heff
      cases heff
    | some c =>
      rw [runtimePolyfillLoadCallback_some scopedEvalFn s c hc] at heff
      by_cases hne : c = ""
      · rw [if_pos hne] at heff
        cases heff
      · rw [if_neg hne] at heff
        cases hres : scopedEvalFn c s.sourceMap <;> rw [hres] at heff <;>
          simp at heff <;> simp [heff]

/-- A concrete state holding compiled output, used by witnesses. -/
def sampleStateCompiled : State :=
  { sampleState with compiled := some "var x;" }

theorem compile_evaluate_gated_witness :
    (runtimePolyfillLoadCallback (fun _ _ => Except.ok ())
        sampleStateCompiled).2 =
      [ReplEffect.scopedEvalCall "var x;" sampleStateCompiled.sourceMap] :=
  (compile_evaluate_gated sampleStateCompiled
      (fun _ _ => Except.ok ())).2.2.1 "var x;" rfl (by decide)

/-- C6: the envPresetDebugInfo produced by _compile is non-null only when
debugEnvPreset is set and the env preset is both enabled and loaded, and
then it is getDebugInfoFromEnvResult of the preset build result; whenever
debugEnvPreset is false _compile yields null, and the rendered output panel
shows the debug info only when debugEnvPreset is true. -/
theorem envPresetDebugInfo_gated {α : Type} (g : α → String)
    (envBuild : Option α) (s : State) :
    (∀ info : String,
      compileEnvPresetDebugInfo g envBuild s = some info →
        (s.debugEnvPreset = true ∧ s.envConfig.isEnvPresetEnabled = true ∧
          s.envPresetState.isLoaded = true ∧
          ∃ r : α, envBuild = some r ∧ info = g r)) ∧
    (s.debugEnvPreset = false →
      compileEnvPresetDebugInfo g envBuild s = none) ∧
    (s.debugEnvPreset = false → renderedOutputInfo s = none) ∧
    (∀ info : String, renderedOutputInfo s = some info →
      s.debugEnvPreset = true ∧ s.envPresetDebugInfo = some info) := by
  refine ⟨?_, ?_, ?_, ?_⟩
  · intro info hinfo
    unfold compileEnvPresetDebugInfo at hinfo
    by_cases h1 : (s.envConfig.isEnvPresetEnabled &&
        s.envPresetState.isLoaded) = true
    · rw [if_pos h1] at hinfo
      by_cases h2 : s.debugEnvPreset = true
      · rw [if_pos h2] at hinfo
        rcases Option.map_eq_some'.mp hinfo with ⟨r, hr, hgr⟩
        simp only [Bool.and_eq_true] at h1
        exact ⟨h2, h1.1, h1.2, r, hr, hgr.symm⟩
      · rw [if_neg h2] at hinfo
        cases hinfo
    · rw [if_neg h1] at hinfo
      cases hinfo
  · intro hdbg
    unfold compileEnvPresetDebugInfo
    by_cases h1 : (s.envConfig.isEnvPresetEnabled &&
        s.envPresetState.isLoaded) = true <;> simp [h1, hdbg]
  · intro hdbg
    unfold renderedOutputInfo
    simp [hdbg]
  · intro info hinfo
    unfold renderedOutputInfo at hinfo
    by_cases h2 : s.debugEnvPreset = true
    · rw [if_pos h2] at hinfo
      exact ⟨h2, hinfo⟩
    · rw [if_neg h2] at hinfo
      cases hinfo

/-- A concrete state with the env preset enabled, loaded, and debugged, used
by witnesses. -/
def sampleStateEnvDebug : State :=
  { sampleState with
    debugEnvPreset := true
    envConfig := { sampleEnvConfig with isEnvPresetEnabled := true }
    envPresetState :=
      { isEnabled := true, isLoaded := true, isLoading := false,
        config := { label := "env" } } }

theorem envPresetDebugInfo_gated_witness :
    sampleStateEnvDebug.debugEnvPreset = true ∧
      sampleStateEnvDebug.envConfig.isEnvPresetEnabled = true ∧
      sampleStateEnvDebug.envPresetState.isLoaded = true ∧
      ∃ r : Nat, (some 7 : Option Nat) = some r ∧
        "debug-info" = (fun _ : Nat => "debug-info") r :=
  (envPresetDebugInfo_gated (fun _ : Nat => "debug-info") (some 7)
    sampleStateEnvDebug).1 "debug-info" rfl

/-- C7: the runtime polyfill load callback evaluates only when compiled
output exists (with a null compiled it returns early, changing nothing); an
error thrown by scopedEval is caught and stored into evalError, a successful
evaluation sets evalError to null, and in either case the callback returns
normally, so the exception never propagates out of it. -/
theorem polyfillCallback_error_handling (s : State)
    (scopedEvalFn : String → Option String → Except String Unit) :
    (s.compiled = none →
      runtimePolyfillLoadCallback scopedEvalFn s = (s, [])) ∧
    (∀ c : String, s.compiled = some c → c ≠ "" →
      (∀ e : String, scopedEvalFn c s.sourceMap = Except.error e →
        (runtimePolyfillLoadCallback scopedEvalFn s).1 =
          { s with evalError := some e }) ∧
      (∀ u : Unit, scopedEvalFn c s.sourceMap = Except.ok u →
        (runtimePolyfillLoadCallback scopedEvalFn s).1 =
          { s with evalError := none })) := by
  constructor
  · intro hc
    unfold runtimePolyfillLoadCallback
    rw [hc]
  · intro c hc hne
    constructor
    · intro e he
      unfold runtimePolyfillLoadCallback
      rw [hc]
      simp only [if_neg hne, he]
    · intro u hu
      unfold runtimePolyfillLoadCallback
      rw [hc]
      simp only [if_neg hne, hu]

theorem polyfillCallback_error_handling_witness :
    (runtimePolyfillLoadCallback (fun _ _ => Except.error "boom")
        sampleStateCompiled).1 =
      { sampleStateCompiled with evalError := some "boom" } :=
  ((polyfillCallback_error_handling sampleStateCompiled
      (fun _ _ => Except.error "boom")).2 "var x;" rfl (by decide)).1
    "boom" rfl

/-- The presets array assembled by _persistState (lines 395-404): the labels
of enabled and loaded presets from _presetsToArray, then babili whenever the
babili-standalone plugin is enabled (loaded or not), then env whenever the
env preset is enabled (loaded or not). -/
def persistPresetsArray (s : State) : List String :=
  presetsToArray s
    ++ (if pluginIsEnabled s.plugins "babili-standalone" then ["babili"]
          else [])
    ++ (if s.envConfig.isEnvPresetEnabled then ["env"] else [])

/-- The serialized configuration object built by _persistState (lines
406-421); the envConfigToTargetsString helper lives in replUtils outside
this excerpt and is passed in as targetsString. -/
def persistedStateOf (targetsString : EnvConfig → String) (s : State) :
    PersistedState :=
  { babili := pluginIsEnabled s.plugins "babili-standalone"
    browsers := s.envConfig.browsers
    build := s.babel.build
    builtIns := s.builtIns
    circleciRepo := s.babel.circleciRepo
    code := s.code
    debug := s.debugEnvPreset
    evaluate := s.runtimePolyfillState.isEnabled
    lineWrap := s.lineWrap
    presets := String.intercalate "," (persistPresetsArray s)
    prettier := pluginIsEnabled s.plugins "prettier"
    showSidebar := s.isSidebarExpanded
    targets := targetsString s.envConfig
    version := s.babel.version }

/-- The two writes performed by _persistState (lines 423-424): the one
serialized object goes both to StorageService.set under the key replState
and to UriUtils.updateQuery. -/
def persistStateEffects (targetsString : EnvConfig → String) (s : State) :
    List ReplEffect :=
  [ReplEffect.storageSet "replState" (persistedStateOf targetsString s),
   ReplEffect.uriUpdateQuery (persistedStateOf targetsString s)]

/-- The handler _onIsSidebarExpandedChange (lines 353-360): it stores the
flag and then runs _persistState as the setState completion callback, so the
persisted object reflects the updated state. -/
def onIsSidebarExpandedChange (targetsString : EnvConfig → String)
    (s : State) (isExpanded : Bool) : State × List ReplEffect :=
  ({ s with isSidebarExpanded := isExpanded },
    persistStateEffects targetsString
      { s with isSidebarExpanded := isExpanded })

/-- The external collaborators used during a debounced compile flush; the
type variable stands for BabelPresetEnvResult, the build result the env
preset reports to onPresetBuild. -/
structure Externals (α : Type) where
  compileFn : String → CompileOptions → CompileResult
  getDebugInfoFromEnvResult : α → String
  envBuild : String → CompileOptions → Option α
  envConfigToTargetsString : EnvConfig → String

/-- One invocation of the debounced body of _compileToState (lines 337-339):
setState with the update returned by _compile on the given code, then
_persistState as the setState completion callback, on the updated state. -/
def compileToStateBody {α : Type} (ext : Externals α) (code : String)
    (s : State) : State × List ReplEffect :=
  let opts := compileOptionsOf s
  let s1 := applyCompileUpdate (ext.compileFn code opts)
    (compileEnvPresetDebugInfo ext.getDebugInfoFromEnvResult
      (ext.envBuild code opts) s) s
  (s1, ReplEffect.compileCall code ::
    persistStateEffects ext.envConfigToTargetsString s1)

/-- C4: whenever _persistState runs, a single serialized configuration
object is built and that same object is written both to local storage under
the key replState and to the URL query string; _persistState is the setState
completion callback of the sidebar-expansion handler (running on the updated
state) and of the debounced compilation body, whose effect list ends with
the same pair of writes for the compiled state. -/
theorem persistState_single_object {α : Type} (ext : Externals α)
    (targetsString : EnvConfig → String) (s : State) (isExpanded : Bool)
    (code : String) :
    (∃ obj : PersistedState,
      persistStateEffects targetsString s =
        [ReplEffect.storageSet "replState" obj,
         ReplEffect.uriUpdateQuery obj]) ∧
    ((onIsSidebarExpandedChange targetsString s isExpanded).2 =
      persistStateEffects targetsString
        (onIsSidebarExpandedChange targetsString s isExpanded).1) ∧
    ((compileToStateBody ext code s).2 =
      ReplEffect.compileCall code ::
        persistStateEffects ext.envConfigToTargetsString
          (compileToStateBody ext code s).1) :=
  ⟨⟨persistedStateOf targetsString s, rfl⟩, rfl, rfl⟩

/-- C5: the persisted presets field equals the comma-joined labels of the
presets that are both enabled and loaded, with babili appended whenever the
babili-standalone plugin is enabled (regardless of loading) and env appended
whenever the env preset is enabled (regardless of loading). -/
theorem persisted_presets_field (targetsString : EnvConfig → String)
    (s : State) :
    (persistedStateOf targetsString s).presets =
      String.intercalate ","
        (((s.presets.filter (fun kp => kp.2.isEnabled && kp.2.isLoaded)).map
            (fun kp => kp.2.config.label))
          ++ (if pluginIsEnabled s.plugins "babili-standalone"
                then ["babili"] else [])
          ++ (if s.envConfig.isEnvPresetEnabled then ["env"] else [])) := rfl

/-- The debounce delay in milliseconds (line 61). -/
def DEBOUNCE_DELAY : Nat := 500

/-- Component state plus the trailing-edge debounce timer of _compileToState:
the argument of the most recent call with the time at which the timer fires,
and the log of external effects performed so far. -/
structure ReplSys where
  state : State
  pending : Option (String × Nat)
  effects : List ReplEffect

/-- The handler _updateCode (lines 440-446): the new code is stored in state
immediately; compilation is handed to the debounced _compileToState, which
re-arms its trailing-edge timer for now + DEBOUNCE_DELAY with the new code
as the pending argument, superseding any previously pending argument. -/
def updateCode (sys : ReplSys) (code : String) (now : Nat) : ReplSys :=
  { sys with
    state := { sys.state with code := code }
    pending := some (code, now + DEBOUNCE_DELAY) }

/-- Expiry check of the debounce timer at time now: once a pending call has
reached its deadline the debounced body runs once with the pending code and
the timer is cleared; an earlier check, or a check with no pending call,
does nothing. -/
def debounceFire {α : Type} (ext : Externals α) (sys : ReplSys)
    (now : Nat) : ReplSys :=
  match sys.pending with
  | none => sys
  | some (code, deadline) =>
    if deadline ≤ now then
      { state := (compileToStateBody ext code sys.state).1
        pending := none
        effects := sys.effects ++ (compileToStateBody ext code sys.state).2 }
    else sys

/-- A burst of _updateCode calls applied in order, each with its time. -/
def runUpdateCalls (sys : ReplSys) (calls : List (String × Nat)) : ReplSys :=
  calls.foldl (fun sy c => updateCode sy c.1 c.2) sys

theorem debounceFire_of_pending {α : Type} (ext : Externals α)
    (sys : ReplSys) (code : String) (deadline now : Nat)
    (hp : sys.pending = some (code, deadline)) :
    debounceFire ext sys now =
      if deadline ≤ now then
        { state := (compileToStateBody ext code sys.state).1
          pending := none
          effects := sys.effects ++ (compileToStateBody ext code sys.state).2 }
      else sys := by
  unfold debounceFire
  rw [hp]

theorem runUpdateCalls_cons (sys : ReplSys) (c : String × Nat)
    (calls : List (String × Nat)) :
    runUpdateCalls sys (c :: calls) =
      { state := { sys.state with
          code := ((c :: calls).getLast (by simp)).1 }
        pending := some (((c :: calls).getLast (by simp)).1,
          ((c :: calls).getLast (by simp)).2 + DEBOUNCE_DELAY)
        effects := sys.effects } := by
  induction calls generalizing sys c with
  | nil => rfl
  | cons hd tl ih =>
    have hstep : runUpdateCalls sys (c :: hd :: tl) =
        runUpdateCalls (updateCode sys c.1 c.2) (hd :: tl) := rfl
    rw [hstep, ih (updateCode sys c.1 c.2) hd,
      List.getLast_cons (by simp : (hd :: tl : List (String × Nat)) ≠ [])]
    rfl

/-- C2: each _updateCode call stores the new code in state immediately and
changes nothing else, while compilation stays deferred behind the
DEBOUNCE_DELAY debounce: during a burst of calls no compile effect occurs
and the pending timer holds the last code with deadline last-call time plus
DEBOUNCE_DELAY; a timer check before that deadline does nothing; and the
check at or after it performs exactly one compilation, on the last code
value, followed by the persist writes of the resulting state. -/
theorem updateCode_debounced {α : Type} (ext : Externals α) (sys : ReplSys)
    (calls : List (String × Nat)) (hne : calls ≠ []) :
    ((runUpdateCalls sys calls).state =
      { sys.state with code := (calls.getLast hne).1 }) ∧
    ((runUpdateCalls sys calls).effects = sys.effects) ∧
    ((runUpdateCalls sys calls).pending =
      some ((calls.getLast hne).1, (calls.getLast hne).2 + DEBOUNCE_DELAY)) ∧
    (∀ t : Nat, t < (calls.getLast hne).2 + DEBOUNCE_DELAY →
      debounceFire ext (runUpdateCalls sys calls) t =
        runUpdateCalls sys calls) ∧
    (∀ t : Nat, (calls.getLast hne).2 + DEBOUNCE_DELAY ≤ t →
      (debounceFire ext (runUpdateCalls sys calls) t).effects =
        sys.effects ++
          (ReplEffect.compileCall (calls.getLast hne).1 ::
            persistStateEffects ext.envConfigToTargetsString
              (compileToStateBody ext (calls.getLast hne).1
                (runUpdateCalls sys calls).state).1)) := by
  obtain ⟨c, rest, rfl⟩ := List.exists_cons_of_ne_nil hne
  rw [runUpdateCalls_cons sys c rest]
  refine ⟨rfl, rfl, rfl, ?_, ?_⟩
  · intro t ht
    rw [debounceFire_of_pending ext _ ((c :: rest).getLast hne).1
      (((c :: rest).getLast hne).2 + DEBOUNCE_DELAY) t rfl,
      if_neg (by omega)]
  · intro t ht
    rw [debounceFire_of_pending ext _ ((c :: rest).getLast hne).1
      (((c :: rest).getLast hne).2 + DEBOUNCE_DELAY) t rfl,
      if_pos ht]
    rfl

/-- Concrete external collaborators used by witnesses: a compiler returning
a fixed result, no env build report, and empty serializations. -/
def sampleExternals : Externals Nat :=
  { compileFn := fun _ _ =>
      { compiled := some "out", compileError := none, evalError := none,
        sourceMap := none }
    getDebugInfoFromEnvResult := fun _ => "dbg"
    envBuild := fun _ _ => none
    envConfigToTargetsString := fun _ => "" }

/-- A concrete system state used by debounce witnesses. -/
def sampleSys : ReplSys :=
  { state := sampleState, pending := none, effects := [] }

theorem updateCode_debounced_witness :
    (debounceFire sampleExternals
        (runUpdateCalls sampleSys [("a", 0), ("b", 100), ("c", 200)])
        700).effects =
      sampleSys.effects ++
        (ReplEffect.compileCall "c" ::
          persistStateEffects sampleExternals.envConfigToTargetsString
            (compileToStateBody sampleExternals "c"
              (runUpdateCalls sampleSys
                [("a", 0), ("b", 100), ("c", 200)]).state).1) :=
  (updateCode_debounced sampleExternals sampleSys
      [("a", 0), ("b", 100), ("c", 200)] (by simp)).2.2.2.2 700 (by decide)

/-- The plugin-load bookkeeping of _checkForUnloadedPlugins: the instance
counter _numLoadingPlugins (line 71), the plugins map captured by the loop,
the current code, and the log of _updateCode recompilations triggered from
load callbacks. -/
structure LoaderSys where
  numLoadingPlugins : Int
  plugins : List (String × PluginState)
  code : String
  updateCodeCalls : List String
  deriving Repr, DecidableEq

/-- The loop of _checkForUnloadedPlugins (lines 216-237) increments
_numLoadingPlugins once per loadPlugin call it makes: one for each plugins
entry passing the guard. -/
def startPluginLoads (sys : LoaderSys) : LoaderSys :=
  { sys with numLoadingPlugins := sys.numLoadingPlugins +
      ((sys.plugins.filter (fun kp => pluginNeedsLoad kp.2)).length : Int) }

/-- One loadPlugin completion callback (lines 222-235): the counter is
decremented first; a failed load re-sets the captured plugins map into state
unchanged (the callback marks nothing loaded); and when the counter has
returned to zero the current code is recompiled through _updateCode. -/
def pluginLoadComplete (sys : LoaderSys) (success : Bool) : LoaderSys :=
  let n := sys.numLoadingPlugins - 1
  let sys2 : LoaderSys :=
    if success then { sys with numLoadingPlugins := n }
    else { sys with numLoadingPlugins := n, plugins := sys.plugins }
  if n = 0 then
    { sys2 with updateCodeCalls := sys2.updateCodeCalls ++ [sys2.code] }
  else sys2

/-- A sequence of load completion callbacks processed in order. -/
def runLoadCompletions (sys : LoaderSys) : List Bool → LoaderSys
  | [] => sys
  | b :: bs => runLoadCompletions (pluginLoadComplete sys b) bs

theorem pluginLoadComplete_eq (sys : LoaderSys) (b : Bool) :
    pluginLoadComplete sys b =
      if sys.numLoadingPlugins - 1 = 0 then
        { sys with
          numLoadingPlugins := sys.numLoadingPlugins - 1
          updateCodeCalls := sys.updateCodeCalls ++ [sys.code] }
      else { sys with numLoadingPlugins := sys.numLoadingPlugins - 1 } := by
  cases b <;> rfl

theorem runLoadCompletions_below (bs : List Bool) (sys : LoaderSys)
    (hlt : (bs.length : Int) < sys.numLoadingPlugins) :
    runLoadCompletions sys bs =
      { sys with
        numLoadingPlugins := sys.numLoadingPlugins - bs.length } := by
  induction bs generalizing sys with
  | nil => simp [runLoadCompletions]
  | cons b bs ih =>
    have hlen : ((b :: bs).length : Int) = (bs.length : Int) + 1 := by
      simp
    have hn : ¬(sys.numLoadingPlugins - 1 = 0) := by omega
    have hstep : runLoadCompletions sys (b :: bs) =
        runLoadCompletions (pluginLoadComplete sys b) bs := rfl
    rw [hstep, pluginLoadComplete_eq, if_neg hn,
      ih { sys with numLoadingPlugins := sys.numLoadingPlugins - 1 }
        (by simpa using (by omega :
          (bs.length : Int) < sys.numLoadingPlugins - 1))]
    have : sys.numLoadingPlugins - 1 - (bs.length : Int) =
        sys.numLoadingPlugins - (((b :: bs).length : Nat) : Int) := by
      rw [hlen]
      ring
    rw [this]

theorem runLoadCompletions_exact (bs : List Bool) (sys : LoaderSys)
    (hpos : 0 < sys.numLoadingPlugins)
    (hlen : (bs.length : Int) = sys.numLoadingPlugins) :
    runLoadCompletions sys bs =
      { sys with
        numLoadingPlugins := 0
        updateCodeCalls := sys.updateCodeCalls ++ [sys.code] } := by
  induction bs generalizing sys with
  | nil =>
    exfalso
    simp at hlen
    omega
  | cons b bs ih =>
    have hlc : ((b :: bs).length : Int) = (bs.length : Int) + 1 := by simp
    have hstep : runLoadCompletions sys (b :: bs) =
        runLoadCompletions (pluginLoadComplete sys b) bs := rfl
    by_cases hn : sys.numLoadingPlugins - 1 = 0
    · have hbs : bs = [] := by
        rw [hlc] at hlen
        have : (bs.length : Int) = 0 := by omega
        exact List.length_eq_zero.mp (by exact_mod_cast this)
      subst hbs
      rw [hstep, pluginLoadComplete_eq, if_pos hn]
      have hzero : sys.numLoadingPlugins - 1 = 0 := hn
      show ({ sys with
        numLoadingPlugins := sys.numLoadingPlugins - 1
        updateCodeCalls := sys.updateCodeCalls ++ [sys.code] } : LoaderSys) = _
      rw [hzero]
    · rw [hstep, pluginLoadComplete_eq, if_neg hn,
        ih { sys with numLoadingPlugins := sys.numLoadingPlugins - 1 }
          (by
            show (0 : Int) < sys.numLoadingPlugins - 1
            omega)
          (by
            rw [hlc] at hlen
            simpa using (by omega :
              (bs.length : Int) = sys.numLoadingPlugins - 1))]

/-- C8: _checkForUnloadedPlugins increments _numLoadingPlugins once per load
it starts (one per qualifying plugins entry) and each completion decrements
it; a failed completion re-sets the plugins map into state unchanged,
marking nothing loaded; while completions are still outstanding no recompile
happens, and the completion that returns the counter to zero triggers
exactly one _updateCode recompilation of the current code. -/
theorem numLoadingPlugins_counts (sys : LoaderSys) (bs : List Bool)
    (b1 : Bool) :
    ((startPluginLoads sys).numLoadingPlugins =
      sys.numLoadingPlugins +
        ((sys.plugins.filter (fun kp => pluginNeedsLoad kp.2)).length :
          Int)) ∧
    ((pluginLoadComplete sys b1).numLoadingPlugins =
      sys.numLoadingPlugins - 1) ∧
    ((pluginLoadComplete sys false).plugins = sys.plugins) ∧
    ((bs.length : Int) < sys.numLoadingPlugins →
      (runLoadCompletions sys bs).updateCodeCalls = sys.updateCodeCalls ∧
      (runLoadCompletions sys bs).plugins = sys.plugins ∧
      (runLoadCompletions sys bs).numLoadingPlugins =
        sys.numLoadingPlugins - bs.length) ∧
    (0 < sys.numLoadingPlugins → (bs.length : Int) = sys.numLoadingPlugins →
      (runLoadCompletions sys bs).updateCodeCalls =
        sys.updateCodeCalls ++ [sys.code] ∧
      (runLoadCompletions sys bs).plugins = sys.plugins ∧
      (runLoadCompletions sys bs).numLoadingPlugins = 0) := by
  refine ⟨rfl, ?_, ?_, ?_, ?_⟩
  · rw [pluginLoadComplete_eq]
    by_cases hn : sys.numLoadingPlugins - 1 = 0
    · rw [if_pos hn]
    · rw [if_neg hn]
  · rw [pluginLoadComplete_eq]
    by_cases hn : sys.numLoadingPlugins - 1 = 0
    · rw [if_pos hn]
    · rw [if_neg hn]
  · intro hlt
    rw [runLoadCompletions_below bs sys hlt]
    exact ⟨rfl, rfl, rfl⟩
  · intro hpos hlen
    rw [runLoadCompletions_exact bs sys hpos hlen]
    exact ⟨rfl, rfl, rfl⟩

/-- A concrete loader state with two loads in flight, used by witnesses. -/
def sampleLoader : LoaderSys :=
  { numLoadingPlugins := 2
    plugins := [("babili-standalone", samplePluginNeedy)]
    code := "x=>x"
    updateCodeCalls := [] }

theorem numLoadingPlugins_counts_witness :
    (runLoadCompletions sampleLoader [true, false]).updateCodeCalls =
        sampleLoader.updateCodeCalls ++ [sampleLoader.code] ∧
      (runLoadCompletions sampleLoader [true, false]).plugins =
        sampleLoader.plugins ∧
      (runLoadCompletions sampleLoader [true, false]).numLoadingPlugins =
        0 :=
  (numLoadingPlugins_counts sampleLoader [true, false] true).2.2.2.2
    (by decide) (by decide)

end Repl
